import Mathlib

/-!
Verification of `topotherm/precalculation_hydraulic.py` (hydraulic and
thermal precalculation for district-heating pipe design).

The module-level physical constants (`Water.density`,
`Water.dynamic_viscosity`, `Water.heat_capacity_cp`,
`Ground.thermal_conductivity`, `Piping.thermal_conductivity`) live in
`topotherm.settings`, which is not among the source files.  Following the
spec's data model ("FluidProperties: density, dynamic viscosity, specific
heat capacity of the working fluid. Constant for a given design run";
"GroundProperties: thermal conductivity of surrounding soil. Constant."),
each embedded function takes these constants as explicit leading real
parameters; theorems assume only the physically evident positivity.

Real-valued division in Lean is total with `x / 0 = 0`; where the Python
code would produce `inf`/`nan` (numpy) or raise, the embedding notes the
junk value explicitly in the corresponding theorem's comment.
-/

namespace Topotherm

/-- Embedding of `determine_feed_line_temp` (precalculation_hydraulic.py,
lines 11–28): supply temperature of the grid from the ambient temperature,
piecewise linear between the two turning points.  The three branches and
their guards mirror the source exactly. -/
def determine_feed_line_temp {α : Type*} [LinearOrderedField α]
    (ambient_temperature temp_sup_high temp_sup_low temp_turn_high temp_turn_low : α) : α :=
  if ambient_temperature < temp_turn_high then
    temp_sup_high
  else if temp_turn_high ≤ ambient_temperature ∧ ambient_temperature ≤ temp_turn_low then
    temp_sup_high -
      ((ambient_temperature - temp_turn_high) / (temp_turn_low - temp_turn_high)) *
        (temp_sup_high - temp_sup_low)
  else
    temp_sup_low

/-- When the turning points are strictly ordered, the control curve equals a
clamped linear ramp: the interpolation ratio is cut off at 0 and 1. -/
theorem determine_feed_line_temp_eq_clamp {α : Type*} [LinearOrderedField α]
    (sh sl th tl T : α) (hturn : th < tl) :
    determine_feed_line_temp T sh sl th tl =
      sh - max 0 (min 1 ((T - th) / (tl - th))) * (sh - sl) := by
  have hd : (0 : α) < tl - th := sub_pos.mpr hturn
  unfold determine_feed_line_temp
  rcases lt_or_le T th with hT | hT
  · rw [if_pos hT]
    have hr : (T - th) / (tl - th) < 0 :=
      div_neg_of_neg_of_pos (sub_neg.mpr hT) hd
    rw [min_eq_right (hr.le.trans zero_le_one), max_eq_left hr.le]
    ring
  · rw [if_neg (not_lt.mpr hT)]
    rcases le_or_lt T tl with hT2 | hT2
    · rw [if_pos ⟨hT, hT2⟩]
      have hr0 : 0 ≤ (T - th) / (tl - th) :=
        div_nonneg (sub_nonneg.mpr hT) hd.le
      have hr1 : (T - th) / (tl - th) ≤ 1 :=
        (div_le_one hd).mpr (sub_le_sub_right hT2 th)
      rw [min_eq_right hr1, max_eq_right hr0]
    · rw [if_neg (by push_neg; intro _; exact hT2)]
      have hr : 1 < (T - th) / (tl - th) :=
        (one_lt_div hd).mpr (sub_lt_sub_right hT2 th)
      rw [min_eq_left hr.le, max_eq_right zero_le_one]
      ring

/-- C1: for a regime with `temp_turn_high < temp_turn_low` and
`temp_sup_low ≤ temp_sup_high`, the control curve returns exactly the high
supply temperature for every ambient temperature at or below the high
turning point, exactly the low supply temperature at or above the low
turning point, the linear interpolation from high to low on the interval in
between, and the mapping is monotonically non-increasing and continuous in
the ambient temperature. -/
theorem determine_feed_line_temp_spec (sh sl th tl : ℝ)
    (hturn : th < tl) (hsup : sl ≤ sh) :
    (∀ T, T ≤ th → determine_feed_line_temp T sh sl th tl = sh) ∧
    (∀ T, tl ≤ T → determine_feed_line_temp T sh sl th tl = sl) ∧
    (∀ T, th ≤ T → T ≤ tl →
      determine_feed_line_temp T sh sl th tl =
        sh - ((T - th) / (tl - th)) * (sh - sl)) ∧
    Antitone (fun T => determine_feed_line_temp T sh sl th tl) ∧
    Continuous (fun T => determine_feed_line_temp T sh sl th tl) := by
  have hd : (0 : ℝ) < tl - th := sub_pos.mpr hturn
  refine ⟨?_, ?_, ?_, ?_, ?_⟩
  · intro T hT
    rw [determine_feed_line_temp_eq_clamp sh sl th tl T hturn]
    have hr : (T - th) / (tl - th) ≤ 0 :=
      div_nonpos_of_nonpos_of_nonneg (sub_nonpos.mpr hT) hd.le
    rw [min_eq_right (hr.trans zero_le_one), max_eq_left hr]
    ring
  · intro T hT
    rw [determine_feed_line_temp_eq_clamp sh sl th tl T hturn]
    have hr : 1 ≤ (T - th) / (tl - th) :=
      (one_le_div hd).mpr (sub_le_sub_right hT th)
    rw [min_eq_left hr, max_eq_right zero_le_one]
    ring
  · intro T hT1 hT2
    rw [determine_feed_line_temp_eq_clamp sh sl th tl T hturn]
    have hr0 : 0 ≤ (T - th) / (tl - th) :=
      div_nonneg (sub_nonneg.mpr hT1) hd.le
    have hr1 : (T - th) / (tl - th) ≤ 1 :=
      (div_le_one hd).mpr (sub_le_sub_right hT2 th)
    rw [min_eq_right hr1, max_eq_right hr0]
  · intro a b hab
    simp only
    rw [determine_feed_line_temp_eq_clamp sh sl th tl a hturn,
      determine_feed_line_temp_eq_clamp sh sl th tl b hturn]
    have hr : (a - th) / (tl - th) ≤ (b - th) / (tl - th) :=
      (div_le_div_iff_of_pos_right hd).mpr (sub_le_sub_right hab th)
    have hc : max 0 (min 1 ((a - th) / (tl - th))) ≤
        max 0 (min 1 ((b - th) / (tl - th))) :=
      max_le_max le_rfl (min_le_min le_rfl hr)
    have hsl : 0 ≤ sh - sl := sub_nonneg.mpr hsup
    nlinarith [mul_le_mul_of_nonneg_right hc hsl]
  · have : (fun T => determine_feed_line_temp T sh sl th tl) =
        fun T : ℝ => sh - max 0 (min 1 ((T - th) / (tl - th))) * (sh - sl) := by
      funext T
      exact determine_feed_line_temp_eq_clamp sh sl th tl T hturn
    rw [this]
    exact continuous_const.sub
      ((continuous_const.max (continuous_const.min
        ((continuous_id.sub continuous_const).div_const (tl - th)))).mul continuous_const)

/-- Witness for C1 at the regime 90/70 °C with turning points −5/15 °C:
ambient −10 °C yields 90, ambient 20 °C yields 70, ambient 5 °C yields the
midpoint 80. -/
theorem determine_feed_line_temp_spec_witness :
    determine_feed_line_temp (-10 : ℝ) 90 70 (-5) 15 = 90 ∧
    determine_feed_line_temp (20 : ℝ) 90 70 (-5) 15 = 70 ∧
    determine_feed_line_temp (5 : ℝ) 90 70 (-5) 15 = 80 := by
  have h := determine_feed_line_temp_spec 90 70 (-5) 15 (by norm_num) (by norm_num)
  refine ⟨h.1 (-10) (by norm_num), h.2.1 20 (by norm_num), ?_⟩
  rw [h.2.2.1 5 (by norm_num) (by norm_num)]
  norm_num

/-- C10: when both turning points coincide at value `t` and the ambient
temperature is exactly `t`, the first guard `ambient < temp_turn_high`
(line 20) is false and the second guard
`ambient >= temp_turn_high and ambient <= temp_turn_low` (line 22) is true,
so the code takes the interpolation branch and evaluates a division whose
denominator `temp_turn_low - temp_turn_high` is zero: the returned value is
the branch expression with a zero denominator.  In numpy this division is
`0.0/0.0 = nan`, so no well-defined supply temperature is produced; in this
total embedding `x / 0 = 0` and the branch expression collapses to the junk
value `sh`, which masks the `nan` but exhibits the branch taken and the
zero denominator. -/
theorem determine_feed_line_temp_degenerate {α : Type*} [LinearOrderedField α]
    (t sh sl : α) :
    ¬ (t < t) ∧ (t ≥ t ∧ t ≤ t) ∧ (t - t = 0) ∧
    determine_feed_line_temp t sh sl t t =
      sh - ((t - t) / (t - t)) * (sh - sl) := by
  refine ⟨lt_irrefl t, ⟨le_refl t, le_refl t⟩, sub_self t, ?_⟩
  unfold determine_feed_line_temp
  rw [if_neg (lt_irrefl t), if_pos ⟨le_refl t, le_refl t⟩]

/-- Embedding of `pipe_capacity` (precalculation_hydraulic.py, lines 56–62):
maximal heat flow of a pipe from mass flow and supply/return temperatures.
`heat_capacity_cp` stands for the global `Water.heat_capacity_cp`. -/
def pipe_capacity {α : Type*} [Field α]
    (heat_capacity_cp mass_flow temperature_supply temperature_return : α) : α :=
  mass_flow * heat_capacity_cp * (temperature_supply - temperature_return)

/-- Embedding of `capacity_to_diameter` (precalculation_hydraulic.py,
lines 64–66): despite its name the function returns the mass flow
corresponding to a pipe capacity.  The body is a single unchecked
division. -/
def capacity_to_diameter {α : Type*} [Field α]
    (heat_capacity_cp pipe_capacity temperature_supply temperature_return : α) : α :=
  pipe_capacity / (heat_capacity_cp * (temperature_supply - temperature_return))

/-- Modelled from the spec: the checked capacity-to-mass-flow conversion the
spec demands — "fails with a `DomainError` ... when `T_supply ==
T_return`" — rendered as an `Option` that is `none` on the degenerate
temperature pair and otherwise performs the same division as the code. -/
def capacity_to_diameter_spec {α : Type*} [Field α] [DecidableEq α]
    (heat_capacity_cp pipe_capacity temperature_supply temperature_return : α) : Option α :=
  if temperature_supply = temperature_return then none
  else some (pipe_capacity / (heat_capacity_cp * (temperature_supply - temperature_return)))

/-- C4: the conversions are exact inverses — converting a mass flow to a
pipe capacity and back returns the original mass flow, for every nonzero
specific heat and every pair of distinct supply/return temperatures. -/
theorem capacity_to_diameter_pipe_capacity (cp m Ts Tr : ℚ)
    (hcp : cp ≠ 0) (hT : Ts ≠ Tr) :
    capacity_to_diameter cp (pipe_capacity cp m Ts Tr) Ts Tr = m := by
  unfold capacity_to_diameter pipe_capacity
  have h : Ts - Tr ≠ 0 := sub_ne_zero.mpr hT
  field_simp
  ring

/-- Witness for C4 at mass flow 3 kg/s, cp 4, supply 90, return 60. -/
theorem capacity_to_diameter_pipe_capacity_witness :
    capacity_to_diameter 4 (pipe_capacity 4 3 90 60) 90 60 = (3 : ℚ) :=
  capacity_to_diameter_pipe_capacity 4 3 90 60 (by norm_num) (by norm_num)

/-- C8 counterexample: at `temperature_supply = temperature_return = 50`
the code's `capacity_to_diameter` raises no error and completes the
division by a zero denominator — it evaluates to the total-division junk
value 0 here (numpy at runtime: ±inf/nan with only a warning) — while the
spec's checked conversion rejects the input with `none` (`DomainError`).
So the claim that the code fails with a `DomainError` is false. -/
theorem capacity_to_diameter_zero_diff_counterexample :
    capacity_to_diameter (1 : ℚ) 100 50 50 = 0 ∧
    capacity_to_diameter_spec (1 : ℚ) 100 50 50 = none := by
  constructor
  · unfold capacity_to_diameter
    norm_num
  · unfold capacity_to_diameter_spec
    norm_num

/-- C8 amended: `capacity_to_diameter` performs no domain validation.  For
distinct temperatures (and nonzero cp) it agrees with the spec's checked
conversion, but at `temperature_supply = temperature_return` the checked
conversion rejects the input (`DomainError` / `none`) while the code
unconditionally divides by the zero denominator `cp * (Ts - Tr) = 0` and
still returns a (meaningless) value — no error is raised. -/
theorem capacity_to_diameter_no_domain_check (cp cap Ts Tr : ℚ) (hT : Ts ≠ Tr) :
    capacity_to_diameter_spec cp cap Ts Tr = some (capacity_to_diameter cp cap Ts Tr) ∧
    (∀ c T : ℚ, capacity_to_diameter_spec cp c T T = none ∧
      cp * (T - T) = 0 ∧ capacity_to_diameter cp c T T = 0) := by
  refine ⟨?_, ?_⟩
  · unfold capacity_to_diameter_spec capacity_to_diameter
    rw [if_neg hT]
  · intro c T
    refine ⟨?_, by ring, ?_⟩
    · unfold capacity_to_diameter_spec
      rw [if_pos rfl]
    · unfold capacity_to_diameter
      simp

/-- Witness for C8 amended at cp 1, capacity 100, supply 90, return 60. -/
theorem capacity_to_diameter_no_domain_check_witness :
    capacity_to_diameter_spec (1 : ℚ) 100 90 60 =
      some (capacity_to_diameter (1 : ℚ) 100 90 60) ∧
    (∀ c T : ℚ, capacity_to_diameter_spec 1 c T T = none ∧
      (1 : ℚ) * (T - T) = 0 ∧ capacity_to_diameter 1 c T T = 0) :=
  capacity_to_diameter_no_domain_check 1 100 90 60 (by norm_num)

/-- Embedding of `thermal_resistance` (precalculation_hydraulic.py,
lines 68–77): combined conductive resistance of ground and insulation for a
buried insulated pipe.  `ground_lambda` and `piping_lambda` stand for the
globals `Ground.thermal_conductivity` and `Piping.thermal_conductivity`.
The body performs no validation of its inputs. -/
noncomputable def thermal_resistance
    (ground_lambda piping_lambda diameter diameter_ratio depth : ℝ) : ℝ :=
  let outer_diameter := diameter * diameter_ratio
  let thermal_resistance_ground :=
    Real.log (4 * depth / outer_diameter) / (2 * Real.pi * ground_lambda)
  let thermal_resistance_insulation :=
    Real.log diameter_ratio / (2 * Real.pi * piping_lambda)
  thermal_resistance_insulation + thermal_resistance_ground

/-- C5: for positive diameter, diameter ratio and depth satisfying
`4 · depth > diameter · diameter_ratio`, `thermal_resistance` returns
exactly the buried-cylinder ground resistance
`ln(4·depth/(diameter·ratio)) / (2π·k_ground)` plus the insulation
resistance `ln(ratio) / (2π·k_insulation)`. -/
theorem thermal_resistance_formula (kg ki d dr depth : ℝ)
    (_hd : 0 < d) (_hr : 0 < dr) (_hdep : 0 < depth) (_hcond : d * dr < 4 * depth) :
    thermal_resistance kg ki d dr depth =
      Real.log (4 * depth / (d * dr)) / (2 * Real.pi * kg) +
      Real.log dr / (2 * Real.pi * ki) := by
  unfold thermal_resistance
  ring

/-- Witness for C5 at conductivities 1, diameter 1, ratio 2, depth 1
(`4·1 > 1·2`). -/
theorem thermal_resistance_formula_witness :
    thermal_resistance 1 1 1 2 1 =
      Real.log (4 * 1 / (1 * 2)) / (2 * Real.pi * 1) +
      Real.log 2 / (2 * Real.pi * 1) :=
  thermal_resistance_formula 1 1 1 2 1 (by norm_num) (by norm_num) (by norm_num)
    (by norm_num)

/-- C6 counterexample: with diameter 1 m, ratio 1.5, depth 0.1 m (violating
`4·depth > outer_diameter`) and unit conductivities, the code raises no
`DomainError` — it silently returns
`(ln 1.5 + ln(0.4/1.5)) / (2π) = ln(2/5) / (2π)`, a strictly negative
resistance, precisely the outcome the claim says must not occur. -/
theorem thermal_resistance_shallow_counterexample :
    thermal_resistance 1 1 1 1.5 0.1 < 0 := by
  have he : thermal_resistance 1 1 1 1.5 0.1 =
      Real.log 1.5 / (2 * Real.pi * 1) +
        Real.log (4 * 0.1 / (1 * 1.5)) / (2 * Real.pi * 1) := by
    unfold thermal_resistance
    ring
  have h1 : (4 * (0.1 : ℝ) / (1 * 1.5)) = 4 / 15 := by norm_num
  have hπ : (0 : ℝ) < 2 * Real.pi * 1 := by positivity
  rw [he, h1, div_add_div_same]
  apply div_neg_of_neg_of_pos _ hπ
  have h2 : Real.log (1.5 : ℝ) + Real.log (4 / 15) = Real.log (2 / 5) := by
    rw [← Real.log_mul (by norm_num) (by norm_num)]
    norm_num
  rw [h2]
  exact Real.log_neg (by norm_num) (by norm_num)

/-- C6 amended: the source performs no shallow-burial validation.  At
diameter 1 m, ratio 1.5, depth 0.1 m it does not raise a `DomainError`: for
every positive ground conductivity it returns the closed-form sum whose
ground term `ln(4·0.1/(1·1.5)) / (2π·k_ground)` is strictly negative, i.e.
a silently returned, physically meaningless resistance. -/
theorem thermal_resistance_shallow_no_error (kg ki : ℝ) (hkg : 0 < kg) :
    thermal_resistance kg ki 1 1.5 0.1 =
      Real.log 1.5 / (2 * Real.pi * ki) +
        Real.log (4 * 0.1 / (1 * 1.5)) / (2 * Real.pi * kg) ∧
    Real.log (4 * 0.1 / (1 * 1.5)) / (2 * Real.pi * kg) < 0 := by
  constructor
  · unfold thermal_resistance
    ring
  · apply div_neg_of_neg_of_pos
    · have h1 : (4 * (0.1 : ℝ) / (1 * 1.5)) = 4 / 15 := by norm_num
      rw [h1]
      exact Real.log_neg (by norm_num) (by norm_num)
    · positivity

/-- Witness for C6 amended at unit conductivities. -/
theorem thermal_resistance_shallow_no_error_witness :
    thermal_resistance 1 1 1 1.5 0.1 =
      Real.log 1.5 / (2 * Real.pi * 1) +
        Real.log (4 * 0.1 / (1 * 1.5)) / (2 * Real.pi * 1) ∧
    Real.log (4 * 0.1 / (1 * 1.5)) / (2 * Real.pi * 1) < 0 :=
  thermal_resistance_shallow_no_error 1 1 (by norm_num)

/-- Embedding of `heat_loss_pipe` (precalculation_hydraulic.py,
lines 80–95): average heat-loss rate per unit length from the exponential
decay of the temperature differential along the pipe.  `heat_capacity_cp`
stands for the global `Water.heat_capacity_cp`. -/
noncomputable def heat_loss_pipe
    (heat_capacity_cp mass_flow length temperature_in thermal_resistance_pipe
      ambient_temperature : ℝ) : ℝ :=
  let temp_diff_in := temperature_in - ambient_temperature
  let temp_diff_out := temp_diff_in *
    Real.exp (-length / (mass_flow * heat_capacity_cp * thermal_resistance_pipe))
  let temperature_out := temp_diff_out + ambient_temperature
  mass_flow * heat_capacity_cp * (temperature_in - temperature_out) / length

/-- C3: for fixed positive mass flow, length and specific heat, and a
positive temperature differential `temperature_in - ambient_temperature`,
the heat loss is strictly decreasing in the thermal resistance: a better
insulated pipe (larger resistance) loses strictly less heat. -/
theorem heat_loss_pipe_strict_anti (cp m L Tin Tamb R1 R2 : ℝ)
    (hcp : 0 < cp) (hm : 0 < m) (hL : 0 < L)
    (hT : 0 < Tin - Tamb) (hR1 : 0 < R1) (hR12 : R1 < R2) :
    heat_loss_pipe cp m L Tin R2 Tamb < heat_loss_pipe cp m L Tin R1 Tamb := by
  have hA : 0 < m * cp := mul_pos hm hcp
  have hAR1 : 0 < m * cp * R1 := mul_pos hA hR1
  have hAR2 : 0 < m * cp * R2 := mul_pos hA (hR1.trans hR12)
  have hdiv : L / (m * cp * R2) < L / (m * cp * R1) :=
    div_lt_div_of_pos_left hL hAR1 (by nlinarith)
  have hexp : Real.exp (-L / (m * cp * R1)) < Real.exp (-L / (m * cp * R2)) := by
    apply Real.exp_lt_exp.mpr
    rw [neg_div, neg_div]
    exact neg_lt_neg hdiv
  unfold heat_loss_pipe
  apply div_lt_div_of_pos_right ?_ hL
  nlinarith [mul_pos (mul_pos hA hT) (sub_pos.mpr hexp)]

/-- Witness for C3 at cp 1, mass flow 1, length 1, inlet 1, ambient 0,
resistances 1 < 2. -/
theorem heat_loss_pipe_strict_anti_witness :
    heat_loss_pipe 1 1 1 1 2 0 < heat_loss_pipe 1 1 1 1 1 0 :=
  heat_loss_pipe_strict_anti 1 1 1 1 0 1 2 (by norm_num) (by norm_num)
    (by norm_num) (by norm_num) (by norm_num) (by norm_num)

/-- Embedding of `mass_flow` (precalculation_hydraulic.py, lines 50–54):
maximal mass flow from velocity and diameter.  `density` stands for the
global `Water.density`. -/
noncomputable def mass_flow (density velocity diameter : ℝ) : ℝ :=
  density * velocity * (Real.pi / 4) * diameter ^ 2

/-- Friction factor computed inside `vel_calculation`
(precalculation_hydraulic.py, lines 39–41): Haaland explicit approximation
from the Reynolds number `density · vel · diameter / dynamic_viscosity`.
`density` and `dynamic_viscosity` stand for the globals `Water.density` and
`Water.dynamic_viscosity`; the exponents mirror the source
(`** 1.11` as a real power, `** -2` as an integer power). -/
noncomputable def friction_factor
    (density dynamic_viscosity diameter roughness vel : ℝ) : ℝ :=
  let Re := density * vel * diameter / dynamic_viscosity
  (-1.8 * Real.logb 10 ((roughness / (3.7 * diameter)) ^ (1.11 : ℝ) + 6.9 / Re)) ^ (-2 : ℤ)

/-- Residual solved by `max_flow_velocity` (precalculation_hydraulic.py,
lines 36–44): `vel_calculation` is the inner function handed to
`scipy.optimize.fsolve`; the solver itself is an external iterative
routine, so the embedding covers the residual whose root it seeks. -/
noncomputable def vel_calculation
    (density dynamic_viscosity diameter roughness max_spec_pressure_loss vel : ℝ) : ℝ :=
  vel - Real.sqrt (2 * max_spec_pressure_loss * diameter /
    (friction_factor density dynamic_viscosity diameter roughness vel * density))

/-- C9: whenever the root finder has converged — the returned velocity is
an exact root of the residual — substituting that velocity back into the
Darcy–Weisbach expression with the same Haaland friction factor reproduces
the target specific pressure loss exactly: `vel` satisfies
`vel = sqrt(2 · Δp_max · diameter / (f(vel) · density))`, hence
`f(vel) · density · vel² / (2 · diameter) = Δp_max`. -/
theorem vel_calculation_round_trip
    (density dynamic_viscosity diameter roughness max_spec_pressure_loss vel : ℝ)
    (hd : 0 < diameter) (hrho : 0 < density) (hp : 0 ≤ max_spec_pressure_loss)
    (hf : 0 < friction_factor density dynamic_viscosity diameter roughness vel)
    (hroot : vel_calculation density dynamic_viscosity diameter roughness
      max_spec_pressure_loss vel = 0) :
    vel = Real.sqrt (2 * max_spec_pressure_loss * diameter /
      (friction_factor density dynamic_viscosity diameter roughness vel * density)) ∧
    friction_factor density dynamic_viscosity diameter roughness vel * density * vel ^ 2 /
      (2 * diameter) = max_spec_pressure_loss := by
  have hfρ : 0 < friction_factor density dynamic_viscosity diameter roughness vel * density :=
    mul_pos hf hrho
  have hX : 0 ≤ 2 * max_spec_pressure_loss * diameter /
      (friction_factor density dynamic_viscosity diameter roughness vel * density) :=
    div_nonneg (mul_nonneg (mul_nonneg (by norm_num) hp) hd.le) hfρ.le
  unfold vel_calculation at hroot
  have hveq : vel = Real.sqrt (2 * max_spec_pressure_loss * diameter /
      (friction_factor density dynamic_viscosity diameter roughness vel * density)) := by
    linarith
  refine ⟨hveq, ?_⟩
  have hsq : vel ^ 2 = 2 * max_spec_pressure_loss * diameter /
      (friction_factor density dynamic_viscosity diameter roughness vel * density) := by
    conv_lhs => rw [hveq]
    exact Real.sq_sqrt hX
  rw [hsq]
  field_simp
  ring

/-- Friction factor at the exactly representable operating point used by
the C9 witness: roughness 0, diameter 1, density 1, viscosity 3/115 and
velocity 9/5 give Reynolds number 69, Haaland argument 1/10, `logb` value
−1 and friction factor `1.8⁻² = 25/81`. -/
theorem friction_factor_at_re69 :
    friction_factor 1 (3 / 115) 1 0 (9 / 5) = 25 / 81 := by
  have h0 : ((0 : ℝ) / (3.7 * 1)) ^ (1.11 : ℝ) = 0 := by
    rw [zero_div]
    exact Real.zero_rpow (by norm_num)
  have hRe : (1 : ℝ) * (9 / 5) * 1 / (3 / 115) = 69 := by norm_num
  have harg : ((0 : ℝ) / (3.7 * 1)) ^ (1.11 : ℝ) +
      6.9 / ((1 : ℝ) * (9 / 5) * 1 / (3 / 115)) = 1 / 10 := by
    rw [h0, hRe]
    norm_num
  simp only [friction_factor]
  rw [harg]
  have hlog : Real.logb 10 (1 / 10) = -1 := by
    rw [one_div, Real.logb_inv, Real.logb_self_eq_one (by norm_num)]
  rw [hlog]
  norm_num

/-- Witness for C9: at density 1, viscosity 3/115, diameter 1, roughness 0
and target pressure loss 1/2, the velocity 9/5 is an exact root of the
residual and the Darcy–Weisbach round trip reproduces 1/2. -/
theorem vel_calculation_round_trip_witness :
    (9 / 5 : ℝ) = Real.sqrt (2 * (1 / 2) * 1 /
      (friction_factor 1 (3 / 115) 1 0 (9 / 5) * 1)) ∧
    friction_factor 1 (3 / 115) 1 0 (9 / 5) * 1 * (9 / 5 : ℝ) ^ 2 / (2 * 1) = 1 / 2 :=
  vel_calculation_round_trip 1 (3 / 115) 1 0 (1 / 2) (9 / 5) (by norm_num) (by norm_num)
    (by norm_num)
    (by rw [friction_factor_at_re69]; norm_num)
    (by
      have h : (2 * (1 / 2 : ℝ) * 1 / (friction_factor 1 (3 / 115) 1 0 (9 / 5) * 1)) =
          (9 / 5 : ℝ) ^ 2 := by
        rw [friction_factor_at_re69]
        norm_num
      simp only [vel_calculation]
      rw [h, Real.sqrt_sq (by norm_num)]
      ring)

/-- Rounding to the nearest integer with ties to even, the convention of
`numpy.round` used on the regression coefficients. -/
def round_half_even (q : ℚ) : ℤ :=
  if q - ⌊q⌋ < 1 / 2 then ⌊q⌋
  else if 1 / 2 < q - ⌊q⌋ then ⌊q⌋ + 1
  else if ⌊q⌋ % 2 = 0 then ⌊q⌋ else ⌊q⌋ + 1

/-- Model of `numpy.round(x, decimals)`: scale by `10 ^ decimals`, round
half to even, scale back. -/
def np_round (q : ℚ) (decimals : ℕ) : ℚ :=
  (round_half_even (q * 10 ^ decimals) : ℚ) / 10 ^ decimals

/-- Result record of `scipy.stats.linregress` as the two regression entry
points consume it: slope, intercept and correlation coefficient.
`linregress` is an external scipy routine, so the embedding cuts at its
result. -/
structure LinregressResult where
  slope : ℚ
  intercept : ℚ
  rvalue : ℚ

/-- Coefficient record returned by both regression entry points
(`r['params']` resp. `factors`). -/
structure RegressionParams where
  a : ℚ
  b : ℚ
  r2 : ℚ

/-- Embedding of the coefficient post-processing of
`regression_thermal_capacity` (precalculation_hydraulic.py, lines
134–137): slope rounded to 6 decimal places into `a`, intercept rounded to
3 into `b`, `r2 = rvalue²`. -/
def regression_thermal_capacity_params (regression : LinregressResult) : RegressionParams :=
  { a := np_round regression.slope 6
    b := np_round regression.intercept 3
    r2 := regression.rvalue ^ 2 }

/-- Embedding of the coefficient post-processing of
`regression_heat_losses` (precalculation_hydraulic.py, lines 167–169):
intercept rounded to 6 decimal places into `b`, slope rounded to 10 into
`a`, `r2 = rvalue²`. -/
def regression_heat_losses_factors (regression : LinregressResult) : RegressionParams :=
  { a := np_round regression.slope 10
    b := np_round regression.intercept 6
    r2 := regression.rvalue ^ 2 }

/-- Round-half-even differs from its argument by at most one half. -/
theorem round_half_even_abs_le (q : ℚ) : |(round_half_even q : ℚ) - q| ≤ 1 / 2 := by
  unfold round_half_even
  have hfl : (⌊q⌋ : ℚ) ≤ q := Int.floor_le q
  have hfl2 : q < ⌊q⌋ + 1 := Int.lt_floor_add_one q
  by_cases h1 : q - ⌊q⌋ < 1 / 2
  · rw [if_pos h1, abs_le]
    constructor <;> linarith
  · rw [if_neg h1]
    by_cases h2 : 1 / 2 < q - ⌊q⌋
    · rw [if_pos h2]
      push_cast
      rw [abs_le]
      constructor <;> linarith
    · rw [if_neg h2]
      have h3 : q - ⌊q⌋ = 1 / 2 := le_antisymm (not_lt.mp h2) (not_lt.mp h1)
      by_cases h4 : ⌊q⌋ % 2 = 0
      · rw [if_pos h4, abs_le]
        constructor <;> linarith
      · rw [if_neg h4]
        push_cast
        rw [abs_le]
        constructor <;> linarith

/-- Rounding to `n` decimal places moves a value by at most half of the
last kept decimal. -/
theorem np_round_abs_le (q : ℚ) (n : ℕ) : |np_round q n - q| ≤ 1 / (2 * 10 ^ n) := by
  unfold np_round
  have h10 : (0 : ℚ) < 10 ^ n := by positivity
  have h := round_half_even_abs_le (q * 10 ^ n)
  have heq : (round_half_even (q * 10 ^ n) : ℚ) / 10 ^ n - q =
      ((round_half_even (q * 10 ^ n) : ℚ) - q * 10 ^ n) / 10 ^ n := by
    field_simp
    ring
  rw [heq, abs_div, abs_of_pos h10]
  have hr : (1 : ℚ) / (2 * 10 ^ n) = (1 / 2) / 10 ^ n := by
    rw [div_div]
  rw [hr]
  exact (div_le_div_iff_of_pos_right h10).mpr h

/-- Round-half-even fixes every integer. -/
theorem round_half_even_intCast (n : ℤ) : round_half_even (n : ℚ) = n := by
  unfold round_half_even
  rw [Int.floor_intCast,
    if_pos (by rw [sub_self]; norm_num : ((n : ℚ) - (n : ℚ)) < 1 / 2)]

/-- Round-half-even sends one tenth to zero. -/
theorem round_half_even_tenth : round_half_even (1 / 10 : ℚ) = 0 := by
  unfold round_half_even
  have hfl : ⌊(1 / 10 : ℚ)⌋ = 0 := by
    rw [Int.floor_eq_zero_iff]
    constructor <;> norm_num
  rw [hfl]
  norm_num

/-- C2 counterexample: `regression_heat_losses` does not follow the
6-for-slope / 3-for-intercept convention.  At a linregress result with
slope `10⁻⁷` and intercept `10⁻⁴`, the returned `a` is `10⁻⁷` (10-decimal
rounding keeps it) while 6-decimal rounding would give 0, and the returned
`b` is `10⁻⁴` (6-decimal rounding keeps it) while 3-decimal rounding would
give 0. -/
theorem regression_heat_losses_rounding_counterexample :
    (regression_heat_losses_factors ⟨1 / 10 ^ 7, 1 / 10 ^ 4, 0⟩).a ≠
      np_round (1 / 10 ^ 7) 6 ∧
    (regression_heat_losses_factors ⟨1 / 10 ^ 7, 1 / 10 ^ 4, 0⟩).b ≠
      np_round (1 / 10 ^ 4) 3 := by
  have ha : (regression_heat_losses_factors ⟨1 / 10 ^ 7, 1 / 10 ^ 4, 0⟩).a = 1 / 10 ^ 7 := by
    show np_round (1 / 10 ^ 7) 10 = 1 / 10 ^ 7
    unfold np_round
    have h : (1 / 10 ^ 7 : ℚ) * 10 ^ 10 = ((1000 : ℤ) : ℚ) := by norm_num
    rw [h, round_half_even_intCast]
    norm_num
  have ha6 : np_round (1 / 10 ^ 7 : ℚ) 6 = 0 := by
    unfold np_round
    have h : (1 / 10 ^ 7 : ℚ) * 10 ^ 6 = 1 / 10 := by norm_num
    rw [h, round_half_even_tenth]
    norm_num
  have hb : (regression_heat_losses_factors ⟨1 / 10 ^ 7, 1 / 10 ^ 4, 0⟩).b = 1 / 10 ^ 4 := by
    show np_round (1 / 10 ^ 4) 6 = 1 / 10 ^ 4
    unfold np_round
    have h : (1 / 10 ^ 4 : ℚ) * 10 ^ 6 = ((100 : ℤ) : ℚ) := by norm_num
    rw [h, round_half_even_intCast]
    norm_num
  have hb3 : np_round (1 / 10 ^ 4 : ℚ) 3 = 0 := by
    unfold np_round
    have h : (1 / 10 ^ 4 : ℚ) * 10 ^ 3 = 1 / 10 := by norm_num
    rw [h, round_half_even_tenth]
    norm_num
  rw [ha, ha6, hb, hb3]
  norm_num

/-- C2 amended: `regression_thermal_capacity` rounds the slope to 6 and
the intercept to 3 decimal places, while `regression_heat_losses` rounds
the slope to 10 and the intercept to 6 decimal places.  Each returned
coefficient is an integer multiple of the corresponding decimal step and
lies within half of that step of the unrounded coefficient. -/
theorem regression_rounding_amended (reg : LinregressResult) :
    (∃ k : ℤ, (regression_thermal_capacity_params reg).a = (k : ℚ) / 10 ^ 6) ∧
    |(regression_thermal_capacity_params reg).a - reg.slope| ≤ 1 / (2 * 10 ^ 6) ∧
    (∃ k : ℤ, (regression_thermal_capacity_params reg).b = (k : ℚ) / 10 ^ 3) ∧
    |(regression_thermal_capacity_params reg).b - reg.intercept| ≤ 1 / (2 * 10 ^ 3) ∧
    (∃ k : ℤ, (regression_heat_losses_factors reg).a = (k : ℚ) / 10 ^ 10) ∧
    |(regression_heat_losses_factors reg).a - reg.slope| ≤ 1 / (2 * 10 ^ 10) ∧
    (∃ k : ℤ, (regression_heat_losses_factors reg).b = (k : ℚ) / 10 ^ 6) ∧
    |(regression_heat_losses_factors reg).b - reg.intercept| ≤ 1 / (2 * 10 ^ 6) :=
  ⟨⟨round_half_even (reg.slope * 10 ^ 6), rfl⟩, np_round_abs_le reg.slope 6,
    ⟨round_half_even (reg.intercept * 10 ^ 3), rfl⟩, np_round_abs_le reg.intercept 3,
    ⟨round_half_even (reg.slope * 10 ^ 10), rfl⟩, np_round_abs_le reg.slope 10,
    ⟨round_half_even (reg.intercept * 10 ^ 6), rfl⟩, np_round_abs_le reg.intercept 6⟩

end Topotherm
